import Mathlib

/-!
Verification of the Rwanda EV policy engine core: a shallow embedding of
`decision_engine.py` (scenario assessment, recommendation generation,
scenario comparison, scenario saving) and `grid_impact_calculator.py`
(grid load estimates), with theorems checking the specification's claims.

Numbers are embedded as exact rationals (`ℚ`), integers as `ℤ`.  Python's
`round(x, d)` is modelled by exact round-half-to-even on rationals.
Strings interpolated from numbers abstract Python's number formatting
(thousands separators and float rendering) via `toString`.
-/

namespace EVPolicy

/-- Round half to even (banker's rounding), as Python's `round` resolves
exact-decimal ties.  For non-tie values this is rounding to the nearest
integer. -/
def roundHalfEven (q : ℚ) : ℤ :=
  if q - ⌊q⌋ = 1/2 then (if ⌊q⌋ % 2 = 0 then ⌊q⌋ else ⌊q⌋ + 1) else round q

/-- `pyRound d q` models Python `round(q, d)` on exact rational values. -/
def pyRound (d : ℕ) (q : ℚ) : ℚ := (roundHalfEven (q * 10 ^ d) : ℚ) / 10 ^ d

/-- `containsSub hay needle` models Python's substring test `needle in hay`. -/
def containsSub (hay needle : String) : Bool :=
  (List.range (hay.data.length + 1)).any fun i => needle.data.isPrefixOf (hay.data.drop i)

/-- Scenario input record (`scenario_data` dict).  Fields read with
`dict[...]` in the source are mandatory; fields read with `.get` are
`Option` (the source's defaults are applied at each use site, as in the
code).  Fields never read by the core functions (`ev_growth`, `fleet_mix`)
are omitted. -/
structure Scenario where
  total_evs : ℤ
  public_chargers : ℤ
  peak_charging_share : ℚ
  two_wheeler_share : ℚ
  charger_types : Option String := none
  v2g_adoption : Option ℚ := none
  solar_integration : Option ℚ := none
  investment_appetite : Option String := none
  regulatory_flexibility : Option String := none
  stakeholder : Option String := none
  policy_priority : Option String := none
  urban_rural_split : Option (ℚ × ℚ) := none
deriving DecidableEq, Repr

/-- Output of `assess_scenario`. -/
structure Assessment where
  infrastructure_pressure : String
  infrastructure_score : ℚ
  grid_risk : String
  grid_score : ℚ
  financial_viability : String
  financial_score : ℚ
  social_acceptance : String
  social_score : ℚ
  ev_to_charger_ratio : ℚ
  urgency_level : String
  recommendation_priority : String
deriving DecidableEq, Repr

/-- `scenario_data['total_evs'] / max(scenario_data['public_chargers'], 1)`. -/
def ev_to_charger (s : Scenario) : ℚ :=
  (s.total_evs : ℚ) / ((max s.public_chargers 1 : ℤ) : ℚ)

/-- Five-level infrastructure pressure ladder with its score
(decision_engine.py lines 17-31). -/
def infraClassify (ratio : ℚ) : String × ℚ :=
  if ratio > 200 then ("Critical", 1.0)
  else if ratio > 150 then ("High", 0.8)
  else if ratio > 100 then ("Medium-High", 0.6)
  else if ratio > 50 then ("Medium", 0.4)
  else ("Low", 0.2)

/-- Base grid-score contribution from peak charging share (lines 37-44). -/
def gridScoreBase (peak : ℚ) : ℚ :=
  if peak > 70 then 0.4
  else if peak > 50 then 0.3
  else if peak > 30 then 0.2
  else 0.1

/-- Charger-type adjustment to the grid score (lines 47-51). -/
def chargerTypeAdj (charger_type : String) : ℚ :=
  if charger_type = "20kW Focus" then 0.2
  else if charger_type = "Fast-Charge Heavy" then 0.3
  else 0

/-- Grid risk score (lines 34-59): base + charger adjustment − V2G relief −
solar relief. -/
def grid_score (s : Scenario) : ℚ :=
  gridScoreBase s.peak_charging_share
    + chargerTypeAdj (s.charger_types.getD "Balanced")
    - (s.v2g_adoption.getD 20) / 100 * 0.2
    - (s.solar_integration.getD 30) / 100 * 0.15

/-- Grid risk ladder (lines 62-71). -/
def gridRiskOf (score : ℚ) : String :=
  if score > 0.6 then "Critical"
  else if score > 0.45 then "High"
  else if score > 0.3 then "Medium-High"
  else if score > 0.15 then "Medium"
  else "Low"

/-- `investment_map.get(key, 0.5)` (lines 74-79, 88). -/
def investmentScoreOf (key : String) : ℚ :=
  if key = "Conservative" then 0.2
  else if key = "Moderate" then 0.5
  else if key = "Aggressive" then 0.7
  else if key = "Transformative" then 0.9
  else 0.5

/-- `regulatory_map.get(key, 0.5)` (lines 81-86, 89). -/
def regulatoryScoreOf (key : String) : ℚ :=
  if key = "Traditional" then 0.2
  else if key = "Adaptive" then 0.5
  else if key = "Innovation-Friendly" then 0.7
  else if key = "Sandbox Approach" then 0.9
  else 0.5

/-- Financial score (line 91). -/
def financial_score (s : Scenario) : ℚ :=
  (investmentScoreOf (s.investment_appetite.getD "Moderate")
    + regulatoryScoreOf (s.regulatory_flexibility.getD "Adaptive")) / 2

/-- Financial viability ladder (lines 93-100). -/
def financialViabilityOf (score : ℚ) : String :=
  if score > 0.7 then "Excellent"
  else if score > 0.5 then "Good"
  else if score > 0.3 then "Moderate"
  else "Poor"

/-- Social acceptance score (lines 103-112). -/
def social_score (s : Scenario) : ℚ :=
  0.5
    + (if s.two_wheeler_share > 60 then 0.2
       else if s.two_wheeler_share > 40 then 0.1
       else 0)
    + (s.solar_integration.getD 30) / 100 * 0.15

/-- Social acceptance ladder (lines 114-119). -/
def socialAcceptanceOf (score : ℚ) : String :=
  if score > 0.7 then "High"
  else if score > 0.5 then "Medium"
  else "Low"

/-- `_calculate_urgency` (lines 135-148). -/
def calculate_urgency (infraSc gridSc : ℚ) : String :=
  let m := max infraSc gridSc
  if m > 0.8 then "Immediate"
  else if m > 0.6 then "Urgent"
  else if m > 0.4 then "High Priority"
  else if m > 0.2 then "Medium Priority"
  else "Low Priority"

/-- The `infrastructure` entry of the `_calculate_priority` scores dict. -/
def infraCompareScore (s : Scenario) : ℚ := ev_to_charger s / 200

/-- The `grid` entry of the `_calculate_priority` scores dict. -/
def gridCompareScore (s : Scenario) : ℚ := s.peak_charging_share / 100

/-- The `finance` entry of the `_calculate_priority` scores dict (line 155):
`0.5 if scenario_data.get('investment_appetite') in ['Conservative',
'Moderate'] else 0.8`.  A missing key yields Python `None`, which is not in
the list, hence 0.8. -/
def financeCompareScore (s : Scenario) : ℚ :=
  if s.investment_appetite = some "Conservative" ∨ s.investment_appetite = some "Moderate"
  then 0.5 else 0.8

/-- The `social` entry of the `_calculate_priority` scores dict. -/
def socialCompareScore (s : Scenario) : ℚ := (100 - s.two_wheeler_share) / 100

/-- The scores dict of `_calculate_priority` in its insertion order. -/
def priorityScoresList (s : Scenario) : List (String × ℚ) :=
  [("infrastructure", infraCompareScore s), ("grid", gridCompareScore s),
   ("finance", financeCompareScore s), ("social", socialCompareScore s)]

/-- Python `max(scores, key=scores.get)`: scan the entries, keeping the
current best and replacing it only on a strictly greater value, so the
first key attaining the maximum wins. -/
def pyMaxBy (hd : String × ℚ) (tl : List (String × ℚ)) : String × ℚ :=
  tl.foldl (fun best kv => if kv.2 > best.2 then kv else best) hd

/-- `_calculate_priority` (lines 150-159). -/
def calculate_priority (s : Scenario) : String :=
  (pyMaxBy ("infrastructure", infraCompareScore s)
    [("grid", gridCompareScore s), ("finance", financeCompareScore s),
     ("social", socialCompareScore s)]).1

/-- `assess_scenario` (lines 10-133). -/
def assess_scenario (s : Scenario) : Assessment :=
  let ratio := ev_to_charger s
  let ic := infraClassify ratio
  let gs := grid_score s
  let fs := financial_score s
  let ss := social_score s
  { infrastructure_pressure := ic.1
    infrastructure_score := ic.2
    grid_risk := gridRiskOf gs
    grid_score := gs
    financial_viability := financialViabilityOf fs
    financial_score := fs
    social_acceptance := socialAcceptanceOf ss
    social_score := ss
    ev_to_charger_ratio := pyRound 1 ratio
    urgency_level := calculate_urgency ic.2 gs
    recommendation_priority := calculate_priority s }

/-- Interpolated-number rendering used when building display strings;
abstracts Python's float rendering and `:,` thousands separators. -/
def fmtQ (q : ℚ) : String := toString q

/-- Integer rendering inside display strings (same abstraction as `fmtQ`). -/
def fmtZ (n : ℤ) : String := toString n

/-- One recommendation dict.  Keys that some rules omit are `Option` /
default-empty. -/
structure RecRecord where
  title : String
  description : String
  category : String
  priority : Option String := none
  timeframe : Option String := none
  impact : Option String := none
  stakeholders : List String := []
  estimated_cost : Option String := none
  kpi : Option String := none
  actions : List String := []
  mitigation_strategy : Option String := none
  roi : Option String := none
deriving DecidableEq, Repr

/-- `_get_infrastructure_actions` (lines 369-402). -/
def get_infrastructure_actions (s : Scenario) (pressure_level : String) : List String :=
  let actions :=
    if pressure_level = "Critical" then
      ["Emergency permitting for charging stations",
       "Temporary mobile charging solutions",
       "Priority grid connections",
       "Public land allocation"]
    else if pressure_level = "High" then
      ["Fast-track approval process",
       "50% subsidy for public chargers",
       "EV-ready building codes",
       "Corridor development"]
    else
      ["Standard approval process",
       "30% subsidy for public chargers",
       "Planning for future growth",
       "Public-private partnerships"]
  let urban_rural := s.urban_rural_split.getD (70, 30)
  if urban_rural.1 > 80 then actions ++ ["Focus on high-density urban charging"]
  else actions ++ ["Balanced urban-rural deployment"]

/-- `_get_stakeholder_recommendations` (lines 404-445). -/
def get_stakeholder_recommendations (stakeholder : String) : List RecRecord :=
  (if containsSub stakeholder "Government" || containsSub stakeholder "MININFRA" then
    [{ title := "Policy Coordination Framework",
       description := "Coordinate across ministries and agencies for coherent EV policy.",
       category := "Governance", priority := some "High", timeframe := some "3-12 months" }]
  else []) ++
  (if containsSub stakeholder "REG" || containsSub stakeholder "Utility" then
    [{ title := "Grid Modernization Plan",
       description := "Upgrade distribution network for EV integration.",
       category := "Grid Infrastructure", priority := some "High",
       timeframe := some "12-36 months" }]
  else []) ++
  (if containsSub stakeholder "Private Investor" || containsSub stakeholder "Developer" then
    [{ title := "Investment Readiness Assessment",
       description := "Evaluate market opportunities and regulatory environment.",
       category := "Financial", priority := some "Medium", timeframe := some "1-3 months",
       roi := some "15-25%" }]
  else []) ++
  (if containsSub stakeholder "Kigali" then
    [{ title := "Urban Mobility Integration",
       description := "Integrate EV charging with urban planning and public transport.",
       category := "Urban Planning", priority := some "Medium",
       timeframe := some "6-24 months" }]
  else [])

/-- The recommendation list of `generate_recommendations` (lines 161-361)
as built, before the final sort. -/
def buildRecommendations (s : Scenario) (a : Assessment) : List RecRecord :=
  let stakeholder := s.stakeholder.getD ""
  let policy_priority := s.policy_priority.getD "Balanced Growth"
  let urgency := a.urgency_level
  let infra_pressure := a.infrastructure_pressure
  let ratio := a.ev_to_charger_ratio
  let infraRecs : List RecRecord :=
    if infra_pressure = "Critical" || infra_pressure = "High" then
      let (title, description, timeframe, priority, estimated_cost) :=
        if ratio > 200 then
          ("EMERGENCY: Massive Infrastructure Deployment Required",
           "Critical infrastructure gap with " ++ fmtQ ratio
             ++ ":1 EV-to-charger ratio. Requires immediate deployment of "
             ++ fmtZ (Int.fdiv s.total_evs 50) ++ " new charging stations.",
           "3-6 months", "Critical", "$" ++ fmtZ (s.total_evs * 1500))
        else if ratio > 150 then
          ("Accelerate Charging Infrastructure Rollout",
           "High pressure with " ++ fmtQ ratio ++ ":1 ratio. Target deployment of "
             ++ fmtZ (Int.fdiv s.total_evs 80) ++ " new stations.",
           "6-12 months", "High", "$" ++ fmtZ (s.total_evs * 1200))
        else
          ("Expand Charging Network",
           "Moderate pressure with " ++ fmtQ ratio ++ ":1 ratio. Plan for "
             ++ fmtZ (Int.fdiv s.total_evs 100) ++ " new stations.",
           "12-18 months", "Medium", "$" ++ fmtZ (s.total_evs * 1000))
      [{ title := title, description := description, timeframe := some timeframe,
         impact := some "High", category := "Infrastructure", priority := some priority,
         stakeholders := ["MININFRA", "RURA", "City of Kigali"],
         estimated_cost := some estimated_cost,
         kpi := some ("Reduce EV-to-charger ratio to 50:1 (Current: " ++ fmtQ ratio ++ ":1)"),
         actions := get_infrastructure_actions s infra_pressure }]
    else []
  let grid_risk := a.grid_risk
  let peak_share := s.peak_charging_share
  let gridRecs : List RecRecord :=
    if grid_risk = "Critical" || grid_risk = "High" || grid_risk = "Medium-High" then
      let (title, description, timeframe, mitigation) :=
        if peak_share > 70 then
          ("CRITICAL: Immediate Grid Protection Measures",
           "Extreme peak charging (" ++ fmtQ peak_share
             ++ "%) risks grid failure. Implement emergency measures.",
           "1-3 months", "Mandatory off-peak charging, emergency DG deployment")
        else if peak_share > 50 then
          ("Implement Smart Grid Solutions",
           "High peak charging (" ++ fmtQ peak_share
             ++ "%) requires advanced grid management.",
           "3-9 months", "Time-of-Use tariffs, smart charging, V2G programs")
        else
          ("Proactive Grid Planning",
           "Moderate peak charging (" ++ fmtQ peak_share
             ++ "%) allows for planned upgrades.",
           "9-18 months", "Grid reinforcement, distributed generation planning")
      let charger_type := s.charger_types.getD "Balanced"
      let (description, mitigation) :=
        if charger_type = "20kW Focus" || charger_type = "Fast-Charge Heavy" then
          (description ++ " Aggravated by " ++ charger_type ++ " strategy.",
           mitigation ++ ", consider charger power management")
        else (description, mitigation)
      [{ title := title, description := description, timeframe := some timeframe,
         impact := some (if peak_share > 50 then "High" else "Medium"),
         category := "Grid Management",
         priority := some (if grid_risk = "Critical" || grid_risk = "High" then "High" else "Medium"),
         stakeholders := ["REG", "RURA", "MININFRA"],
         estimated_cost := some (if peak_share > 50 then "$5-15M" else "$2-8M"),
         kpi := some ("Reduce peak charging to <40% (Current: " ++ fmtQ peak_share ++ "%)"),
         mitigation_strategy := some mitigation }]
    else []
  let two_wheeler_share := s.two_wheeler_share
  let (tw_title, tw_description, tw_actions) :=
    if two_wheeler_share > 60 then
      ("E-Moto Priority Strategy",
       "Dominant two-wheeler share (" ++ fmtQ two_wheeler_share
         ++ "%) requires specialized infrastructure focus.",
       ["Deploy high-density e-moto charging hubs",
        "Standardize battery swapping systems",
        "Develop e-moto dedicated lanes"])
    else if two_wheeler_share > 40 then
      ("Integrated Two-Wheeler Planning",
       "Significant two-wheeler share (" ++ fmtQ two_wheeler_share
         ++ "%) needs balanced approach.",
       ["Mixed-use charging stations",
        "E-moto purchase subsidies",
        "Operator training programs"])
    else
      ("Mainstream EV Focus",
       "Lower two-wheeler share (" ++ fmtQ two_wheeler_share
         ++ "%) allows focus on car infrastructure.",
       ["Standard car charging networks",
        "Public charging corridors",
        "Fleet electrification programs"])
  let twRec : RecRecord :=
    { title := tw_title, description := tw_description, timeframe := some "6-24 months",
      impact := some (if two_wheeler_share > 60 then "High" else "Medium"),
      category := "Fleet Strategy",
      priority := some (if two_wheeler_share > 60 then "High" else "Medium"),
      stakeholders := ["City of Kigali", "RDB", "Private Sector"],
      estimated_cost := some ("$" ++ fmtQ ((s.total_evs : ℚ) * 200 * (two_wheeler_share / 100))),
      kpi := some ("Optimize infrastructure for " ++ fmtQ two_wheeler_share ++ "% two-wheeler fleet"),
      actions := tw_actions }
  let policyRecs : List RecRecord :=
    if policy_priority = "Climate Impact Maximization" then
      let solar := s.solar_integration.getD 30
      [{ title := "Renewable Charging Strategy",
         description := "Align with climate goals. Current solar integration: "
           ++ fmtQ solar ++ "%.",
         timeframe := some "12-36 months",
         impact := some (if solar < 50 then "High" else "Medium"),
         category := "Climate & Environment",
         priority := some (if solar < 30 then "High" else "Medium"),
         stakeholders := ["REMA", "REG", "MININFRA"],
         estimated_cost := some ("$" ++ fmtZ (s.total_evs * 300)),
         kpi := some ("Achieve " ++ fmtQ (max 50 (solar + 20)) ++ "% renewable charging by 2030"),
         actions :=
           if solar < 30 then
             ["Solar mandate for new stations", "Renewable energy credits", "Green financing"]
           else
             ["Scale successful models", "Grid integration of renewables", "Carbon tracking"] }]
    else if policy_priority = "Grid Stability & Resilience" then
      [{ title := "Grid Resilience Framework",
         description := "Prioritize grid stability in EV integration planning.",
         timeframe := some "6-18 months", impact := some "High",
         category := "Grid Infrastructure", priority := some "High",
         stakeholders := ["REG", "RURA", "MININFRA"], estimated_cost := some "$10-25M",
         kpi := some "Maintain grid stability at 100,000+ EVs",
         actions := ["Advanced grid monitoring", "Resilience standards", "Backup power systems"] }]
    else []
  let investment_appetite := s.investment_appetite.getD "Moderate"
  let regulatory_flexibility := s.regulatory_flexibility.getD "Adaptive"
  let financialRecs : List RecRecord :=
    if (investment_appetite = "Aggressive" || investment_appetite = "Transformative")
        && (regulatory_flexibility = "Innovation-Friendly"
            || regulatory_flexibility = "Sandbox Approach") then
      [{ title := "Advanced PPP Framework",
         description := "High investment appetite (" ++ investment_appetite
           ++ ") with flexible regulation (" ++ regulatory_flexibility
           ++ ") enables innovative partnerships.",
         timeframe := some "6-24 months", impact := some "High", category := "Financial",
         priority := some "High", stakeholders := ["MINECOFIN", "RDB", "Private Sector"],
         estimated_cost := some "PPP (Public: $10-50M, Private: 3-5x leverage)",
         kpi := some ("Attract $" ++ fmtZ (s.total_evs * 100) ++ " private investment"),
         roi := some "12-20%" }]
    else []
  let urgencyRecs : List RecRecord :=
    if urgency = "Immediate" || urgency = "Urgent" then
      [{ title := "Rapid Response Team",
         description := urgency ++ " situation detected. Establish cross-functional team.",
         timeframe := some "1 month", impact := some "High", category := "Governance",
         priority := some "Critical", stakeholders := ["All relevant agencies"],
         estimated_cost := some "Minimal", kpi := some "Weekly progress monitoring",
         actions := ["Immediate stakeholder coordination", "Emergency funding access",
                     "Fast-track approvals"] }]
    else []
  infraRecs ++ gridRecs ++ [twRec] ++ policyRecs ++ financialRecs
    ++ get_stakeholder_recommendations stakeholder ++ urgencyRecs

/-- Sort key (lines 364-365):
`priority_order.get(x.get('priority', 'Low'), 0)` with
`priority_order = {Critical: 4, High: 3, Medium: 2, Low: 1}`. -/
def priorityRank (p : Option String) : ℕ :=
  let key := p.getD "Low"
  if key = "Critical" then 4
  else if key = "High" then 3
  else if key = "Medium" then 2
  else if key = "Low" then 1
  else 0

/-- Descending-rank order used by the final sort. -/
def recDescend (x y : RecRecord) : Prop :=
  priorityRank y.priority ≤ priorityRank x.priority

instance : DecidableRel recDescend := fun x y =>
  inferInstanceAs (Decidable (priorityRank y.priority ≤ priorityRank x.priority))

instance : IsTotal RecRecord recDescend :=
  ⟨fun x y => Nat.le_total (priorityRank y.priority) (priorityRank x.priority)⟩

instance : IsTrans RecRecord recDescend :=
  ⟨fun _ _ _ hab hbc => Nat.le_trans hbc hab⟩

/-- Python's stable `list.sort(key=..., reverse=True)` (line 365), modelled
as a stable insertion sort by descending priority rank (any two stable
sorts of the same preorder agree). -/
def sortRecommendations (l : List RecRecord) : List RecRecord :=
  List.insertionSort recDescend l

/-- `generate_recommendations` (lines 161-367). -/
def generate_recommendations (s : Scenario) (a : Assessment) : List RecRecord :=
  sortRecommendations (buildRecommendations s a)

/-- `GridImpactCalculator.base_grid_capacity` (230.0 MW). -/
def base_grid_capacity : ℚ := 230

/-- `GridImpactCalculator.peak_base_demand` (100.0 MW). -/
def peak_base_demand : ℚ := 100

/-- `dg_requirements['10kW']`. -/
def dg_requirement_10kW : ℚ := 6.5

/-- `dg_requirements['20kW']`. -/
def dg_requirement_20kW : ℚ := 24.5

/-- Per-EV power lookup in `calculate_grid_impact` (lines 19-24); the
source reads `scenario_data.get('charger_types')`, so a missing key falls
into the `else` branch. -/
def chargerPower (s : Scenario) : ℚ :=
  if s.charger_types = some "10kW Focus" then 7
  else if s.charger_types = some "20kW Focus" then 12
  else 10

/-- `additional_demand` (line 26), exact (before rounding). -/
def additional_demand (s : Scenario) : ℚ :=
  (s.total_evs : ℚ) * chargerPower s * (s.peak_charging_share / 100) / 1000 / 2

/-- `total_demand` (line 27), exact (before rounding). -/
def total_demand (s : Scenario) : ℚ := peak_base_demand + additional_demand s

/-- `_calculate_dg_requirements` (lines 47-62). -/
def calculate_dg_requirements (s : Scenario) (additional : ℚ) : ℚ :=
  let charger_type := s.charger_types.getD "Balanced"
  let base_dg :=
    if charger_type = "10kW Focus" then dg_requirement_10kW
    else if charger_type = "20kW Focus" then dg_requirement_20kW
    else (dg_requirement_10kW + dg_requirement_20kW) / 2
  base_dg * (additional / 25)

/-- `_determine_grid_risk_level` (lines 64-72). -/
def determine_grid_risk_level (additional : ℚ) : String :=
  if additional > 50 then "High"
  else if additional > 30 then "Medium"
  else "Low"

/-- Return record of `calculate_grid_impact`. -/
structure GridImpactResult where
  additional_demand_mw : ℚ
  total_demand_mw : ℚ
  grid_capacity_utilization : ℚ
  dg_capacity_needed : ℚ
  grid_risk_level : String
  is_grid_overloaded : Bool
deriving DecidableEq, Repr

/-- `calculate_grid_impact` (lines 14-45). -/
def calculate_grid_impact (s : Scenario) : GridImpactResult :=
  let additional := additional_demand s
  let total := peak_base_demand + additional
  let utilization := min (total / base_grid_capacity * 100) 100
  { additional_demand_mw := pyRound 2 additional
    total_demand_mw := pyRound 2 total
    grid_capacity_utilization := pyRound 1 utilization
    dg_capacity_needed := pyRound 2 (calculate_dg_requirements s additional)
    grid_risk_level := determine_grid_risk_level additional
    is_grid_overloaded := decide (total > base_grid_capacity) }

/-- Return record of `compare_scenarios`. -/
structure ComparisonResult where
  scenario1_assessment : Assessment
  scenario2_assessment : Assessment
  differences : List String
  recommendation_differences : ℤ
deriving DecidableEq, Repr

/-- `compare_scenarios` (lines 515-542). -/
def compare_scenarios (s1 s2 : Scenario) : ComparisonResult :=
  let assessment1 := assess_scenario s1
  let assessment2 := assess_scenario s2
  let differences :=
    (if |s1.total_evs - s2.total_evs| > 10000 then
      ["EV fleet difference: " ++ fmtZ |s1.total_evs - s2.total_evs| ++ " vehicles"]
    else []) ++
    (if assessment1.infrastructure_pressure ≠ assessment2.infrastructure_pressure then
      ["Infrastructure pressure: " ++ assessment1.infrastructure_pressure
        ++ " vs " ++ assessment2.infrastructure_pressure]
    else []) ++
    (if assessment1.grid_risk ≠ assessment2.grid_risk then
      ["Grid risk: " ++ assessment1.grid_risk ++ " vs " ++ assessment2.grid_risk]
    else []) ++
    (if assessment1.financial_viability ≠ assessment2.financial_viability then
      ["Financial viability: " ++ assessment1.financial_viability
        ++ " vs " ++ assessment2.financial_viability]
    else [])
  { scenario1_assessment := assessment1
    scenario2_assessment := assessment2
    differences := differences
    recommendation_differences :=
      ((generate_recommendations s1 assessment1).length : ℤ)
        - ((generate_recommendations s2 assessment2).length : ℤ) }

/-- One saved bundle (lines 546-552). -/
structure SavedScenario where
  name : String
  timestamp : String
  data : Scenario
  assessment : Assessment
  recommendations : List RecRecord
deriving DecidableEq, Repr

/-- `save_scenario` (lines 544-561).  The `datetime.now()` timestamp is an
input; the best-effort `json.dump` to external storage is represented by
the `write_ok` flag (second component of the result): the source's
`try/except: pass` swallows any write failure, so the returned in-memory
list is independent of it. -/
def save_scenario (scenarios : List SavedScenario) (name timestamp : String)
    (scenario_data : Scenario) (assessment : Assessment) (write_ok : Bool) :
    List SavedScenario × Bool :=
  let scenario : SavedScenario :=
    { name := name, timestamp := timestamp, data := scenario_data,
      assessment := assessment,
      recommendations := generate_recommendations scenario_data assessment }
  (scenarios ++ [scenario], write_ok)

/-- Scenario A of the spec's worked examples (spec section 8). -/
def scenarioA : Scenario :=
  { total_evs := 260000, public_chargers := 300, peak_charging_share := 80,
    two_wheeler_share := 50, charger_types := some "Fast-Charge Heavy",
    v2g_adoption := some 0, solar_integration := some 0,
    investment_appetite := some "Conservative",
    regulatory_flexibility := some "Traditional" }

/-- Scenario B (the baseline) of the spec's worked examples. -/
def scenarioB : Scenario :=
  { total_evs := 12500, public_chargers := 156, peak_charging_share := 50,
    two_wheeler_share := 52, charger_types := some "Balanced",
    v2g_adoption := some 5, solar_integration := some 15,
    investment_appetite := some "Moderate",
    regulatory_flexibility := some "Adaptive" }

/-- Ordinal rank of the five pressure levels under the ordering
Low < Medium < Medium-High < High < Critical. -/
def pressureOrdinal (p : String) : ℕ :=
  if p = "Critical" then 4
  else if p = "High" then 3
  else if p = "Medium-High" then 2
  else if p = "Medium" then 1
  else 0

/-- `k` is the key of the first entry attaining the maximum value among the
four entries `a, b, c, d` (in that order): the winning entry is weakly
above every later entry and strictly above every earlier entry. -/
def isFirstArgmax4 (a b c d : String × ℚ) (k : String) : Prop :=
  (k = a.1 ∧ b.2 ≤ a.2 ∧ c.2 ≤ a.2 ∧ d.2 ≤ a.2)
  ∨ (k = b.1 ∧ a.2 < b.2 ∧ c.2 ≤ b.2 ∧ d.2 ≤ b.2)
  ∨ (k = c.1 ∧ a.2 < c.2 ∧ b.2 < c.2 ∧ d.2 ≤ c.2)
  ∨ (k = d.1 ∧ a.2 < d.2 ∧ b.2 < d.2 ∧ c.2 < d.2)

/-- Input exercising the overload/rounding boundary of
`calculate_grid_impact`: exact total demand 230.0025 MW. -/
def scenarioC3 : Scenario :=
  { total_evs := 52001, public_chargers := 100, peak_charging_share := 50,
    two_wheeler_share := 50 }

/-- Input with a missing `investment_appetite` key. -/
def scenarioC4 : Scenario :=
  { total_evs := 1000, public_chargers := 100, peak_charging_share := 50,
    two_wheeler_share := 50 }

/-- A recommendation record with no `priority` key. -/
def recNoPriority : RecRecord :=
  { title := "A", description := "", category := "Test" }

/-- A recommendation record with priority `"Low"`. -/
def recLowPriority : RecRecord :=
  { title := "B", description := "", category := "Test", priority := some "Low" }

theorem roundHalfEven_nonneg {q : ℚ} (h : 0 ≤ q) : 0 ≤ roundHalfEven q := by
  unfold roundHalfEven
  have hf : (0 : ℤ) ≤ ⌊q⌋ := Int.le_floor.mpr (by exact_mod_cast h)
  split_ifs
  · exact hf
  · omega
  · rw [round_eq]
    exact Int.le_floor.mpr (by push_cast; linarith)

theorem roundHalfEven_le {q : ℚ} {n : ℤ} (h : q ≤ n) : roundHalfEven q ≤ n := by
  unfold roundHalfEven
  have hfl : ⌊q⌋ ≤ n := by simpa using Int.floor_le_floor h
  split_ifs with h1 h2
  · exact hfl
  · have hc : (⌊q⌋ : ℚ) < n := by
      have := Int.floor_le q
      linarith
    have : ⌊q⌋ < n := by exact_mod_cast hc
    omega
  · rw [round_eq]
    have : ⌊q + 1/2⌋ ≤ ⌊(n : ℚ) + 1/2⌋ := Int.floor_le_floor (by linarith)
    have hn : ⌊(n : ℚ) + 1/2⌋ = n := by
      rw [add_comm, Int.floor_add_int]
      norm_num
    omega

theorem le_roundHalfEven {q : ℚ} {n : ℤ} (h : (n : ℚ) ≤ q) : n ≤ roundHalfEven q := by
  unfold roundHalfEven
  have hfl : n ≤ ⌊q⌋ := Int.le_floor.mpr h
  split_ifs
  · exact hfl
  · omega
  · rw [round_eq]
    exact hfl.trans (Int.floor_le_floor (by linarith))

theorem pyRound_le {d : ℕ} {q : ℚ} {n : ℤ} (h : q ≤ n) : pyRound d q ≤ n := by
  unfold pyRound
  rw [div_le_iff₀ (by positivity)]
  have h1 : q * 10 ^ d ≤ ((n * 10 ^ d : ℤ) : ℚ) := by
    push_cast
    exact mul_le_mul_of_nonneg_right h (by positivity)
  have h2 := roundHalfEven_le h1
  exact_mod_cast h2

theorem le_pyRound {d : ℕ} {q : ℚ} {n : ℤ} (h : (n : ℚ) ≤ q) : (n : ℚ) ≤ pyRound d q := by
  unfold pyRound
  rw [le_div_iff₀ (by positivity)]
  have h1 : ((n * 10 ^ d : ℤ) : ℚ) ≤ q * 10 ^ d := by
    push_cast
    exact mul_le_mul_of_nonneg_right h (by positivity)
  have h2 := le_roundHalfEven h1
  exact_mod_cast h2

theorem pyRound_eq_low {d : ℕ} {q : ℚ} {n : ℤ} (h1 : (n : ℚ) ≤ q * 10 ^ d)
    (h2 : q * 10 ^ d < n + 1/2) : pyRound d q = (n : ℚ) / 10 ^ d := by
  have hf : ⌊q * 10 ^ d⌋ = n := Int.floor_eq_iff.mpr ⟨h1, by push_cast; linarith⟩
  unfold pyRound roundHalfEven
  rw [hf, if_neg (by intro hc; rw [sub_eq_iff_eq_add] at hc; rw [hc] at h2; linarith),
    round_eq]
  have h3 : ⌊q * 10 ^ d + 1/2⌋ = n :=
    Int.floor_eq_iff.mpr ⟨by linarith, by push_cast; linarith⟩
  rw [h3]

theorem pyRound_eq_high {d : ℕ} {q : ℚ} {n : ℤ} (h1 : (n : ℚ) + 1/2 < q * 10 ^ d)
    (h2 : q * 10 ^ d < n + 1) : pyRound d q = ((n : ℚ) + 1) / 10 ^ d := by
  have hf : ⌊q * 10 ^ d⌋ = n := Int.floor_eq_iff.mpr ⟨by linarith, by push_cast; linarith⟩
  unfold pyRound roundHalfEven
  rw [hf, if_neg (by intro hc; rw [sub_eq_iff_eq_add] at hc; rw [hc] at h1; linarith),
    round_eq]
  have h3 : ⌊q * 10 ^ d + 1/2⌋ = n + 1 :=
    Int.floor_eq_iff.mpr ⟨by push_cast; linarith, by push_cast; linarith⟩
  rw [h3]
  push_cast
  ring

theorem pyRound_eq_exact {d : ℕ} {q : ℚ} {n : ℤ} (h : q * 10 ^ d = (n : ℚ)) :
    pyRound d q = (n : ℚ) / 10 ^ d := by
  have hf : ⌊q * 10 ^ d⌋ = n := by rw [h]; exact Int.floor_intCast n
  unfold pyRound roundHalfEven
  rw [hf, if_neg (by rw [h]; norm_num), round_eq]
  have h3 : ⌊q * 10 ^ d + 1/2⌋ = n :=
    Int.floor_eq_iff.mpr ⟨by rw [h]; linarith, by rw [h]; push_cast; linarith⟩
  rw [h3]

theorem filter_orderedInsert_rank (k : ℕ) (x : RecRecord) (l : List RecRecord) :
    (List.orderedInsert recDescend x l).filter (fun y => priorityRank y.priority == k)
      = (x :: l).filter (fun y => priorityRank y.priority == k) := by
  induction l with
  | nil => simp [List.orderedInsert]
  | cons b l ih =>
    by_cases h : recDescend x b
    · rw [List.orderedInsert, if_pos h]
    · rw [List.orderedInsert, if_neg h]
      have hlt : priorityRank x.priority < priorityRank b.priority := Nat.lt_of_not_le h
      by_cases hbk : priorityRank b.priority = k
      · have hxk : ¬(priorityRank x.priority = k) := by omega
        simp [List.filter_cons, hbk, hxk, ih]
      · simp [List.filter_cons, hbk, ih]

theorem filter_sortRecommendations_rank (k : ℕ) (l : List RecRecord) :
    (sortRecommendations l).filter (fun y => priorityRank y.priority == k)
      = l.filter (fun y => priorityRank y.priority == k) := by
  induction l with
  | nil => rfl
  | cons x l ih =>
    show (List.orderedInsert recDescend x (List.insertionSort recDescend l)).filter _ = _
    rw [filter_orderedInsert_rank]
    simp only [sortRecommendations] at ih
    by_cases hx : priorityRank x.priority = k <;> simp [List.filter_cons, hx, ih]

theorem sortRecommendations_sorted (l : List RecRecord) :
    List.Sorted recDescend (sortRecommendations l) :=
  List.sorted_insertionSort recDescend l

theorem grid_score_le (s : Scenario) (h1 : 0 ≤ s.v2g_adoption.getD 20)
    (h2 : 0 ≤ s.solar_integration.getD 30) : grid_score s ≤ 0.7 := by
  unfold grid_score gridScoreBase chargerTypeAdj
  have ha : 0 ≤ s.v2g_adoption.getD 20 / 100 * 0.2 :=
    mul_nonneg (div_nonneg h1 (by norm_num)) (by norm_num)
  have hb : 0 ≤ s.solar_integration.getD 30 / 100 * 0.15 :=
    mul_nonneg (div_nonneg h2 (by norm_num)) (by norm_num)
  split_ifs <;> linarith

theorem pyMaxBy4_firstArgmax (ka kb kc kd : String) (a b c d : ℚ) :
    isFirstArgmax4 (ka, a) (kb, b) (kc, c) (kd, d)
      ((pyMaxBy (ka, a) [(kb, b), (kc, c), (kd, d)]).1) := by
  unfold pyMaxBy isFirstArgmax4
  simp only [List.foldl]
  by_cases h1 : b > a
  · simp only [if_pos h1]
    by_cases h2 : c > b
    · simp only [if_pos h2]
      by_cases h3 : d > c
      · simp only [if_pos h3]
        exact Or.inr (Or.inr (Or.inr ⟨by trivial, by linarith, by linarith, by linarith⟩))
      · simp only [if_neg h3]
        exact Or.inr (Or.inr (Or.inl ⟨by trivial, by linarith, by linarith, by linarith⟩))
    · simp only [if_neg h2]
      by_cases h3 : d > b
      · simp only [if_pos h3]
        exact Or.inr (Or.inr (Or.inr ⟨by trivial, by linarith, by linarith, by linarith⟩))
      · simp only [if_neg h3]
        exact Or.inr (Or.inl ⟨by trivial, by linarith, by linarith, by linarith⟩)
  · simp only [if_neg h1]
    by_cases h2 : c > a
    · simp only [if_pos h2]
      by_cases h3 : d > c
      · simp only [if_pos h3]
        exact Or.inr (Or.inr (Or.inr ⟨by trivial, by linarith, by linarith, by linarith⟩))
      · simp only [if_neg h3]
        exact Or.inr (Or.inr (Or.inl ⟨by trivial, by linarith, by linarith, by linarith⟩))
    · simp only [if_neg h2]
      by_cases h3 : d > a
      · simp only [if_pos h3]
        exact Or.inr (Or.inr (Or.inr ⟨by trivial, by linarith, by linarith, by linarith⟩))
      · simp only [if_neg h3]
        exact Or.inl ⟨by trivial, by linarith, by linarith, by linarith⟩

/-- C1 (counterexample): on Scenario B the claimed grid_score
0.3 − 0.01 − 0.0225 = 0.2675 and financial_viability "Good" are both wrong:
`peak_charging_share = 50` is not `> 50`, so the base grid contribution is
0.2, and `financial_score = 0.5` is not `> 0.5`, so viability is
"Moderate". -/
theorem c1_counterexample :
    ¬((assess_scenario scenarioB).grid_score = 0.3 - 0.01 - 0.0225
      ∧ (assess_scenario scenarioB).financial_viability = "Good") := by
  have hgs : (assess_scenario scenarioB).grid_score = 67/400 := by
    show grid_score scenarioB = 67/400
    simp [grid_score, gridScoreBase, chargerTypeAdj, scenarioB] <;> norm_num
  rintro ⟨hg, -⟩
  rw [hgs] at hg
  norm_num at hg

/-- C1 (amended): assessing Scenario B yields ev_to_charger_ratio 80.1 and
infrastructure_pressure "Medium", grid_score 0.2 − 0.01 − 0.0225 = 0.1675
with grid_risk "Medium", and financial_score 0.5 with financial_viability
"Moderate". -/
theorem c1_scenarioB_assessment :
    (assess_scenario scenarioB).ev_to_charger_ratio = 80.1
    ∧ (assess_scenario scenarioB).infrastructure_pressure = "Medium"
    ∧ (assess_scenario scenarioB).grid_score = 0.2 - 0.01 - 0.0225
    ∧ (assess_scenario scenarioB).grid_risk = "Medium"
    ∧ (assess_scenario scenarioB).financial_score = 0.5
    ∧ (assess_scenario scenarioB).financial_viability = "Moderate" := by
  have he : ev_to_charger scenarioB = 12500/156 := by
    simp [ev_to_charger, scenarioB] <;> norm_num
  refine ⟨?_, ?_, ?_, ?_, ?_, ?_⟩
  · show pyRound 1 (ev_to_charger scenarioB) = 80.1
    rw [he, pyRound_eq_low (n := 801) (by norm_num) (by norm_num)]
    norm_num
  · show (infraClassify (ev_to_charger scenarioB)).1 = "Medium"
    rw [he]
    simp [infraClassify] <;> norm_num
  · show grid_score scenarioB = 0.2 - 0.01 - 0.0225
    simp [grid_score, gridScoreBase, chargerTypeAdj, scenarioB] <;> norm_num
  · show gridRiskOf (grid_score scenarioB) = "Medium"
    simp [gridRiskOf, grid_score, gridScoreBase, chargerTypeAdj, scenarioB] <;> norm_num
  · show financial_score scenarioB = 0.5
    simp [financial_score, investmentScoreOf, regulatoryScoreOf, scenarioB] <;> norm_num
  · show financialViabilityOf (financial_score scenarioB) = "Moderate"
    simp [financialViabilityOf, financial_score, investmentScoreOf, regulatoryScoreOf,
      scenarioB] <;> norm_num

/-- C2: for every scenario and assessment, the list returned by
`generate_recommendations` is sorted descending by priority rank
({Critical: 4, High: 3, Medium: 2, Low: 1}): adjacent records a (earlier)
and b (later) satisfy rank a ≥ rank b, and for each rank value the records
keep their rule-evaluation order (stable sort: filtering the sorted output
by any rank equals filtering the as-built list). -/
theorem c2_recommendations_sorted_stable (s : Scenario) (a : Assessment) :
    List.Chain' (fun x y => priorityRank y.priority ≤ priorityRank x.priority)
        (generate_recommendations s a)
    ∧ (priorityRank (some "Critical") = 4 ∧ priorityRank (some "High") = 3
        ∧ priorityRank (some "Medium") = 2 ∧ priorityRank (some "Low") = 1)
    ∧ ∀ k : ℕ,
        (generate_recommendations s a).filter (fun y => priorityRank y.priority == k)
          = (buildRecommendations s a).filter (fun y => priorityRank y.priority == k) := by
  refine ⟨?_, by decide, fun k => filter_sortRecommendations_rank k (buildRecommendations s a)⟩
  exact List.Pairwise.chain' (sortRecommendations_sorted (buildRecommendations s a))

/-- C3 (counterexample): with 52,001 EVs at 50% peak share the exact total
demand is 230.0025 MW, so `is_grid_overloaded` is true, yet the returned
`total_demand_mw` rounds to 230.0, which is not `> 230`: the claimed iff
against the returned field fails. -/
theorem c3_counterexample :
    (calculate_grid_impact scenarioC3).is_grid_overloaded = true
    ∧ ¬((calculate_grid_impact scenarioC3).total_demand_mw > 230) := by
  have hd : total_demand scenarioC3 = 92001/400 := by
    simp [total_demand, peak_base_demand, additional_demand, chargerPower,
      scenarioC3] <;> norm_num
  constructor
  · show decide (total_demand scenarioC3 > base_grid_capacity) = true
    simp only [decide_eq_true_eq]
    rw [hd]
    norm_num [base_grid_capacity]
  · show ¬(pyRound 2 (total_demand scenarioC3) > 230)
    rw [hd, pyRound_eq_low (n := 23000) (by norm_num) (by norm_num)]
    norm_num

/-- C3 (amended): for every scenario with peak_charging_share in [0, 100]
and a non-negative fleet, `grid_capacity_utilization` lies in [0, 100] even
when true demand exceeds the 230 MW capacity, and `is_grid_overloaded` is
true iff the exact (unrounded) total demand exceeds 230 MW. -/
theorem c3_utilization_bounds_overload (s : Scenario)
    (h0 : 0 ≤ s.total_evs) (h1 : 0 ≤ s.peak_charging_share)
    (h2 : s.peak_charging_share ≤ 100) :
    (0 ≤ (calculate_grid_impact s).grid_capacity_utilization
      ∧ (calculate_grid_impact s).grid_capacity_utilization ≤ 100)
    ∧ ((calculate_grid_impact s).is_grid_overloaded = true ↔ total_demand s > 230) := by
  have hpow : (0 : ℚ) < chargerPower s := by
    unfold chargerPower
    split_ifs <;> norm_num
  have hadd : 0 ≤ additional_demand s := by
    unfold additional_demand
    have he : (0 : ℚ) ≤ (s.total_evs : ℚ) := by exact_mod_cast h0
    have hp : (0 : ℚ) ≤ s.peak_charging_share / 100 := div_nonneg h1 (by norm_num)
    have := mul_nonneg (mul_nonneg he hpow.le) hp
    positivity
  have hu : (calculate_grid_impact s).grid_capacity_utilization
      = pyRound 1 (min (total_demand s / base_grid_capacity * 100) 100) := rfl
  refine ⟨⟨?_, ?_⟩, ?_⟩
  · rw [hu]
    have hmin : ((0 : ℤ) : ℚ) ≤ min (total_demand s / base_grid_capacity * 100) 100 := by
      push_cast
      refine le_min ?_ (by norm_num)
      have ht : (0 : ℚ) ≤ total_demand s := by
        unfold total_demand peak_base_demand
        linarith
      exact mul_nonneg (div_nonneg ht (by norm_num [base_grid_capacity])) (by norm_num)
    have h := le_pyRound (d := 1) hmin
    exact_mod_cast h
  · rw [hu]
    have hle : min (total_demand s / base_grid_capacity * 100) 100 ≤ ((100 : ℤ) : ℚ) := by
      push_cast
      exact min_le_right _ 100
    have h := pyRound_le (d := 1) hle
    exact_mod_cast h
  · have hb : (calculate_grid_impact s).is_grid_overloaded
        = decide (total_demand s > base_grid_capacity) := rfl
    rw [hb]
    simp [base_grid_capacity]

/-- C3 (witness): the amended bounds and overload characterization at
Scenario B. -/
theorem c3_witness :
    (0 ≤ (calculate_grid_impact scenarioB).grid_capacity_utilization
      ∧ (calculate_grid_impact scenarioB).grid_capacity_utilization ≤ 100)
    ∧ ((calculate_grid_impact scenarioB).is_grid_overloaded = true
        ↔ total_demand scenarioB > 230) :=
  c3_utilization_bounds_overload scenarioB (by norm_num [scenarioB])
    (by norm_num [scenarioB]) (by norm_num [scenarioB])

/-- C4 (counterexample): with the `investment_appetite` key missing, the
finance comparison score of `_calculate_priority` is 0.8, not the claimed
default 0.5 (the source tests membership in {Conservative, Moderate} and
everything else, including None, gets 0.8). -/
theorem c4_counterexample :
    scenarioC4.investment_appetite = none
    ∧ financeCompareScore scenarioC4 = 0.8
    ∧ ¬(financeCompareScore scenarioC4 = 0.5) := by
  refine ⟨rfl, ?_, ?_⟩
  · simp [financeCompareScore, scenarioC4]
  · simp [financeCompareScore, scenarioC4]
    norm_num

/-- C4 (amended): the finance comparison score is 0.5 iff
investment_appetite is "Conservative" or "Moderate" and 0.8 otherwise
(including Aggressive, Transformative, missing and unrecognized values),
and the returned dimension is the argmax of the four scores with ties
broken by first occurrence in the order infrastructure, grid, finance,
social. -/
theorem c4_priority_scores (s : Scenario) :
    (financeCompareScore s = 0.5
      ↔ (s.investment_appetite = some "Conservative"
          ∨ s.investment_appetite = some "Moderate"))
    ∧ (financeCompareScore s = 0.5 ∨ financeCompareScore s = 0.8)
    ∧ isFirstArgmax4 ("infrastructure", infraCompareScore s)
        ("grid", gridCompareScore s) ("finance", financeCompareScore s)
        ("social", socialCompareScore s) (calculate_priority s) := by
  refine ⟨?_, ?_, ?_⟩
  · unfold financeCompareScore
    split_ifs with h
    · simp [h]
    · simp [h]
      norm_num
  · unfold financeCompareScore
    split_ifs
    · exact Or.inl rfl
    · exact Or.inr rfl
  · exact pyMaxBy4_firstArgmax "infrastructure" "grid" "finance" "social"
      (infraCompareScore s) (gridCompareScore s) (financeCompareScore s)
      (socialCompareScore s)

/-- C5 (counterexample): a record with a missing priority key is ranked 1
(the sort key defaults the missing key to "Low" before the rank lookup),
not 0, and it does not sort after a record with the recognized priority
"Low": the stable sort keeps it first. -/
theorem c5_counterexample :
    priorityRank recNoPriority.priority = 1
    ∧ ¬(priorityRank recNoPriority.priority = 0)
    ∧ sortRecommendations [recNoPriority, recLowPriority]
      = [recNoPriority, recLowPriority] := by
  decide

/-- C5 (amended): in the recommendation post-processing sort, a record
whose priority holds a string outside {Critical, High, Medium, Low} is
ranked 0 and therefore sorts last, while a record with a missing priority
defaults to "Low" and is ranked 1, tying with explicit Low records; the
sorted output is pairwise descending in rank, so no rank-0 record ever
precedes a recognized-priority record. -/
theorem c5_unknown_priority_ranks_last :
    priorityRank none = 1
    ∧ (∀ str : String, str ≠ "Critical" → str ≠ "High" → str ≠ "Medium" →
        str ≠ "Low" → priorityRank (some str) = 0)
    ∧ ∀ l : List RecRecord,
        (sortRecommendations l).Pairwise
          (fun x y => priorityRank y.priority ≤ priorityRank x.priority) := by
  refine ⟨rfl, ?_, ?_⟩
  · intro str hc hh hm hl
    simp [priorityRank, hc, hh, hm, hl]
  · intro l
    exact sortRecommendations_sorted l

/-- C5 (witness): the amended ranking at the unrecognized string
"Urgent". -/
theorem c5_witness : priorityRank (some "Urgent") = 0 :=
  c5_unknown_priority_ranks_last.2.1 "Urgent" (by decide) (by decide) (by decide)
    (by decide)

/-- C6: `calculate_grid_impact` on Scenario B uses per-EV power 10
("Balanced") and returns additional_demand_mw = 31.25,
total_demand_mw = 131.25, grid_capacity_utilization = 57.1, and
is_grid_overloaded = false. -/
theorem c6_grid_impact_scenarioB :
    chargerPower scenarioB = 10
    ∧ (calculate_grid_impact scenarioB).additional_demand_mw = 31.25
    ∧ (calculate_grid_impact scenarioB).total_demand_mw = 131.25
    ∧ (calculate_grid_impact scenarioB).grid_capacity_utilization = 57.1
    ∧ (calculate_grid_impact scenarioB).is_grid_overloaded = false := by
  have ha : additional_demand scenarioB = 125/4 := by
    simp [additional_demand, chargerPower, scenarioB] <;> norm_num
  have ht : total_demand scenarioB = 525/4 := by
    simp [total_demand, peak_base_demand, additional_demand, chargerPower,
      scenarioB] <;> norm_num
  refine ⟨?_, ?_, ?_, ?_, ?_⟩
  · simp [chargerPower, scenarioB]
  · show pyRound 2 (additional_demand scenarioB) = 31.25
    rw [ha, pyRound_eq_exact (n := 3125) (by norm_num)]
    norm_num
  · show pyRound 2 (total_demand scenarioB) = 131.25
    rw [ht, pyRound_eq_exact (n := 13125) (by norm_num)]
    norm_num
  · show pyRound 1 (min (total_demand scenarioB / base_grid_capacity * 100) 100) = 57.1
    rw [ht]
    have hm : min ((525/4 : ℚ) / base_grid_capacity * 100) 100 = 2625/46 := by
      rw [min_eq_left (by norm_num [base_grid_capacity])]
      norm_num [base_grid_capacity]
    rw [hm, pyRound_eq_high (n := 570) (by norm_num) (by norm_num)]
    norm_num
  · show decide (total_demand scenarioB > base_grid_capacity) = false
    simp only [decide_eq_false_iff_not]
    rw [ht]
    norm_num [base_grid_capacity]

/-- C7: infrastructure pressure is monotone in the EV-to-charger ratio
total_evs / max(public_chargers, 1): a lower-or-equal ratio never yields a
strictly higher pressure ordinal under Low < Medium < Medium-High < High <
Critical. -/
theorem c7_infrastructure_pressure_monotone (s₁ s₂ : Scenario)
    (h : ev_to_charger s₁ ≤ ev_to_charger s₂) :
    pressureOrdinal (assess_scenario s₁).infrastructure_pressure
      ≤ pressureOrdinal (assess_scenario s₂).infrastructure_pressure := by
  have e₁ : (assess_scenario s₁).infrastructure_pressure
      = (infraClassify (ev_to_charger s₁)).1 := rfl
  have e₂ : (assess_scenario s₂).infrastructure_pressure
      = (infraClassify (ev_to_charger s₂)).1 := rfl
  rw [e₁, e₂]
  unfold infraClassify
  split_ifs <;> first | decide | linarith

/-- C7 (witness): monotonicity instantiated at Scenarios B and A. -/
theorem c7_witness :
    ev_to_charger scenarioB ≤ ev_to_charger scenarioA
    ∧ pressureOrdinal (assess_scenario scenarioB).infrastructure_pressure
        ≤ pressureOrdinal (assess_scenario scenarioA).infrastructure_pressure := by
  have h : ev_to_charger scenarioB ≤ ev_to_charger scenarioA := by
    simp [ev_to_charger, scenarioA, scenarioB] <;> norm_num
  exact ⟨h, c7_infrastructure_pressure_monotone scenarioB scenarioA h⟩

/-- C8: comparing Scenario A with Scenario B reports the fleet-size
difference |Δtotal_evs| = 247,500 > 10,000 and one mismatch entry for each
of infrastructure_pressure, grid_risk and financial_viability (thousands
separators in the fleet string are abstracted by `fmtZ`). -/
theorem c8_compare_scenarios_A_B :
    |scenarioA.total_evs - scenarioB.total_evs| = 247500
    ∧ ((247500 : ℤ) > 10000)
    ∧ (compare_scenarios scenarioA scenarioB).differences
      = ["EV fleet difference: 247500 vehicles",
         "Infrastructure pressure: Critical vs Medium",
         "Grid risk: Critical vs Medium",
         "Financial viability: Poor vs Moderate"] := by
  have hA1 : (assess_scenario scenarioA).infrastructure_pressure = "Critical" := by
    show (infraClassify (ev_to_charger scenarioA)).1 = "Critical"
    simp [infraClassify, ev_to_charger, scenarioA] <;> norm_num
  have hA2 : (assess_scenario scenarioA).grid_risk = "Critical" := by
    show gridRiskOf (grid_score scenarioA) = "Critical"
    simp [gridRiskOf, grid_score, gridScoreBase, chargerTypeAdj, scenarioA] <;> norm_num
  have hA3 : (assess_scenario scenarioA).financial_viability = "Poor" := by
    show financialViabilityOf (financial_score scenarioA) = "Poor"
    simp [financialViabilityOf, financial_score, investmentScoreOf, regulatoryScoreOf,
      scenarioA] <;> norm_num
  have hB1 : (assess_scenario scenarioB).infrastructure_pressure = "Medium" := by
    show (infraClassify (ev_to_charger scenarioB)).1 = "Medium"
    simp [infraClassify, ev_to_charger, scenarioB] <;> norm_num
  have hB2 : (assess_scenario scenarioB).grid_risk = "Medium" := by
    show gridRiskOf (grid_score scenarioB) = "Medium"
    simp [gridRiskOf, grid_score, gridScoreBase, chargerTypeAdj, scenarioB] <;> norm_num
  have hB3 : (assess_scenario scenarioB).financial_viability = "Moderate" := by
    show financialViabilityOf (financial_score scenarioB) = "Moderate"
    simp [financialViabilityOf, financial_score, investmentScoreOf, regulatoryScoreOf,
      scenarioB] <;> norm_num
  refine ⟨by decide, by decide, ?_⟩
  show (if |scenarioA.total_evs - scenarioB.total_evs| > 10000 then
      ["EV fleet difference: " ++ fmtZ |scenarioA.total_evs - scenarioB.total_evs|
        ++ " vehicles"] else [])
    ++ (if (assess_scenario scenarioA).infrastructure_pressure
          ≠ (assess_scenario scenarioB).infrastructure_pressure then
      ["Infrastructure pressure: " ++ (assess_scenario scenarioA).infrastructure_pressure
        ++ " vs " ++ (assess_scenario scenarioB).infrastructure_pressure] else [])
    ++ (if (assess_scenario scenarioA).grid_risk ≠ (assess_scenario scenarioB).grid_risk then
      ["Grid risk: " ++ (assess_scenario scenarioA).grid_risk ++ " vs "
        ++ (assess_scenario scenarioB).grid_risk] else [])
    ++ (if (assess_scenario scenarioA).financial_viability
          ≠ (assess_scenario scenarioB).financial_viability then
      ["Financial viability: " ++ (assess_scenario scenarioA).financial_viability
        ++ " vs " ++ (assess_scenario scenarioB).financial_viability] else []) = _
  rw [hA1, hA2, hA3, hB1, hB2, hB3]
  decide

/-- C9: `save_scenario` appends exactly one bundle (name, timestamp, data,
assessment, recommendations) to the in-memory list, and the resulting list
is the same whether the best-effort external write succeeds or fails (the
failure is swallowed). -/
theorem c9_save_scenario_appends (scenarios : List SavedScenario)
    (name timestamp : String) (scenario_data : Scenario)
    (assessment : Assessment) (write_ok : Bool) :
    (save_scenario scenarios name timestamp scenario_data assessment write_ok).1
      = scenarios
        ++ [{ name := name, timestamp := timestamp, data := scenario_data,
              assessment := assessment,
              recommendations := generate_recommendations scenario_data assessment }]
    ∧ (save_scenario scenarios name timestamp scenario_data assessment write_ok).1.length
        = scenarios.length + 1
    ∧ (save_scenario scenarios name timestamp scenario_data assessment write_ok).1
        = (save_scenario scenarios name timestamp scenario_data assessment (!write_ok)).1 := by
  refine ⟨rfl, by simp [save_scenario], rfl⟩

/-- C10: if V2G adoption and solar integration are non-negative and
`assess_scenario` reports urgency "Immediate", then infrastructure
pressure is "Critical" and the EV-to-charger ratio exceeds 200: the grid
score is bounded by 0.4 + 0.3 = 0.7 ≤ 0.8, so only the infrastructure
score 1.0 can cross the 0.8 threshold. -/
theorem c10_immediate_implies_critical (s : Scenario)
    (h1 : 0 ≤ s.v2g_adoption.getD 20) (h2 : 0 ≤ s.solar_integration.getD 30)
    (h : (assess_scenario s).urgency_level = "Immediate") :
    (assess_scenario s).infrastructure_pressure = "Critical"
    ∧ ev_to_charger s > 200 := by
  have hg := grid_score_le s h1 h2
  have hu : (assess_scenario s).urgency_level
      = calculate_urgency (infraClassify (ev_to_charger s)).2 (grid_score s) := rfl
  have hp : (assess_scenario s).infrastructure_pressure
      = (infraClassify (ev_to_charger s)).1 := rfl
  rw [hu] at h
  rw [hp]
  by_cases hr : ev_to_charger s > 200
  · refine ⟨?_, hr⟩
    simp [infraClassify, hr]
  · exfalso
    have hi : (infraClassify (ev_to_charger s)).2 ≤ 0.8 := by
      unfold infraClassify
      split_ifs <;> norm_num
    have hm : max (infraClassify (ev_to_charger s)).2 (grid_score s) ≤ 0.8 :=
      max_le hi (hg.trans (by norm_num))
    simp only [calculate_urgency] at h
    rw [if_neg (not_lt.mpr hm)] at h
    split_ifs at h <;> exact absurd h (by decide)

theorem urgencyA_immediate : (assess_scenario scenarioA).urgency_level = "Immediate" := by
  show calculate_urgency (infraClassify (ev_to_charger scenarioA)).2 (grid_score scenarioA)
    = "Immediate"
  have h1 : (infraClassify (ev_to_charger scenarioA)).2 = 1.0 := by
    simp [infraClassify, ev_to_charger, scenarioA] <;> norm_num
  have h2 : grid_score scenarioA = 7/10 := by
    simp [grid_score, gridScoreBase, chargerTypeAdj, scenarioA] <;> norm_num
  rw [h1, h2]
  norm_num [calculate_urgency, max_def]

/-- C10 (witness): the implication instantiated at Scenario A, whose
urgency is "Immediate". -/
theorem c10_witness :
    (assess_scenario scenarioA).infrastructure_pressure = "Critical"
    ∧ ev_to_charger scenarioA > 200 :=
  c10_immediate_implies_critical scenarioA (by simp [scenarioA]) (by simp [scenarioA])
    urgencyA_immediate

end EVPolicy
